import Mathlib

/-!
Shallow embedding of `src/firebase.js` (EnviroSense dashboard): the timestamp
normalizer `parseTimestampFlexible`, the ingestion pipeline of `fetchData`
(map / filter / sort-descending / take N), the threshold registry, the
threshold-lines chart plugin, and the render cycle over an abstract DOM /
chart-handle state.

Modelling conventions:
* A JavaScript `Date` is its epoch-milliseconds value (an `Int`); a `Date` is
  valid exactly when its absolute value is at most 8.64e15 ms (ECMA TimeClip);
  `isNaN(d.getTime())` is `¬ dateTimeValid ms`.
* `new Date(year, month0, day, h, mi, s)` builds a local-time date; the local
  zone enters as an explicit offset parameter `tzOff` (milliseconds to subtract
  from the civil reading to reach UTC). Out-of-range components roll over, as
  in ECMA MakeDay/MakeTime: the month is floor-divided into the year, and the
  day/hour/minute/second contribute linearly.
* JS strings are `List Char`; `\d` is `Char.isDigit`; `String.prototype.trim`
  is dropping whitespace at both ends.
* `parseInt(s, 10)` on an all-digit string is exact decimal reading. (The JS
  float value is exact below 2^53; above the Date validity bound both the
  float and the exact value are out of range, so null-ness agrees.)
* Locale formatting (`toLocaleTimeString` etc.) is an external boundary: a
  formatted timestamp is represented by the `Date` it formats.
-/

namespace EnviroSense

/-- A JavaScript primitive that can reach `parseTimestampFlexible` as a
non-null argument: a string or a (modelled as integral) number. -/
inductive JSVal where
  | str (s : List Char)
  | num (n : Int)
deriving DecidableEq

/-- Model of `String(ts)` on the primitives above: a string is itself, a
number prints in decimal. -/
def jsToString : JSVal → List Char
  | .str s => s
  | .num n => if n < 0 then '-' :: Nat.toDigits 10 n.natAbs else Nat.toDigits 10 n.natAbs

/-- Model of `String.prototype.trim`: drop whitespace from both ends. -/
def jsTrim (s : List Char) : List Char :=
  ((s.dropWhile Char.isWhitespace).reverse.dropWhile Char.isWhitespace).reverse

/-- Decimal value of an all-digit character list, as `parseInt(s, 10)` reads it. -/
def digitsToNat (s : List Char) : Nat :=
  s.foldl (fun a c => 10 * a + (c.toNat - '0'.toNat)) 0

/-- The regex `/^\d{9,}$/` of Case A: nine or more decimal digits and nothing else. -/
def isEpochShape (s : List Char) : Bool :=
  decide (9 ≤ s.length) && s.all Char.isDigit

/-- Split a character list at every `'-'` (the separators of the Case B
pattern); n dashes give n+1 groups, empty groups included. -/
def splitDash : List Char → List (List Char)
  | [] => [[]]
  | c :: cs =>
    if c = '-' then [] :: splitDash cs
    else
      match splitDash cs with
      | [] => [[c]]
      | g :: gs => (c :: g) :: gs

/-- A digit group of the Case B regex: between `lo` and `hi` characters, all digits. -/
def isDigitGroup (lo hi : Nat) (g : List Char) : Bool :=
  decide (lo ≤ g.length) && decide (g.length ≤ hi) && g.all Char.isDigit

/-- The regex `/^(\d{1,2})-(\d{1,2})-(\d{4})-(\d{1,2})-(\d{1,2})-(\d{1,2})$/` of
Case B: six dash-separated digit groups (each group is dash-free, so the
anchored match is exactly this decomposition), returning the captured numbers
`(day, month, year, hour, minute, second)`. -/
def structuredMatch (s : List Char) : Option (Nat × Nat × Nat × Nat × Nat × Nat) :=
  match splitDash s with
  | [g1, g2, g3, g4, g5, g6] =>
    if isDigitGroup 1 2 g1 && isDigitGroup 1 2 g2 && isDigitGroup 4 4 g3 &&
        isDigitGroup 1 2 g4 && isDigitGroup 1 2 g5 && isDigitGroup 1 2 g6 then
      some (digitsToNat g1, digitsToNat g2, digitsToNat g3,
        digitsToNat g4, digitsToNat g5, digitsToNat g6)
    else none
  | _ => none

/-- Largest valid `Date` magnitude in milliseconds (ECMA: 8.64e15). -/
def maxDateMs : Int := 8640000000000000

/-- Validity of a `Date` built from `ms`: `isNaN(new Date(ms).getTime())` is
the negation of this. -/
def dateTimeValid (ms : Int) : Bool :=
  decide (-maxDateMs ≤ ms) && decide (ms ≤ maxDateMs)

/-- Days from the Unix epoch to the civil date `y-m-d` (proleptic Gregorian,
`m` in 1..12; `d` may lie outside its month and contributes linearly, which is
exactly the ECMA MakeDay rollover for the day component). -/
def daysFromCivil (y m d : Int) : Int :=
  let y2 := if m ≤ 2 then y - 1 else y
  let era := Int.fdiv y2 400
  let yoe := y2 - era * 400
  let doy := (153 * (if 2 < m then m - 3 else m + 9) + 2) / 5 + d - 1
  let doe := yoe * 365 + yoe / 4 - yoe / 100 + doy
  era * 146097 + doe - 719468

/-- ECMA MakeDay/MakeTime with full rollover, reading the components as a
civil (zone-free) instant: the month is floor-divided into the year and the
day/hour/minute/second contribute linearly. The two-digit-year rule (0..99
means 1900..1999) is included for faithfulness although the source regex
always supplies four digits. -/
def makeDayTimeMs (y mo0 d h mi s : Int) : Int :=
  let yr := if 0 ≤ y ∧ y ≤ 99 then y + 1900 else y
  let ym := yr + Int.fdiv mo0 12
  let mn := Int.fmod mo0 12
  let dayNum := daysFromCivil ym (mn + 1) 1 + (d - 1)
  dayNum * 86400000 + ((h * 60 + mi) * 60 + s) * 1000

/-- Model of `new Date(y, mo0, d, h, mi, s).getTime()` with local-zone offset
`tzOff` (ms): the civil instant shifted to UTC. -/
def makeLocalMs (tzOff y mo0 d h mi s : Int) : Int :=
  makeDayTimeMs y mo0 d h mi s - tzOff

/-- Embedding of `parseTimestampFlexible` (src/firebase.js lines 23-49).
`none` as input models `ts == null` (null or undefined); the result is the
epoch-ms value of the returned `Date`, or `none` for null. -/
def parseTimestampFlexible (tzOff : Int) (ts : Option JSVal) : Option Int :=
  match ts with
  | none => none
  | some v =>
    let s := jsTrim (jsToString v)
    if isEpochShape s then
      let ms : Int := (digitsToNat s : Int) * 1000
      if dateTimeValid ms then some ms else none
    else
      match structuredMatch s with
      | some (dd, mm, yyyy, hh, mi, ss) =>
        let ms := makeLocalMs tzOff (yyyy : Int) ((mm : Int) - 1) (dd : Int)
          (hh : Int) (mi : Int) (ss : Int)
        if dateTimeValid ms then some ms else none
      | none => none

/-- Epoch ms of the civil reading `y-mo-d h:mi:s` (1-based month, in-range
components), before any zone shift. -/
def civilMs (y mo d h mi s : Int) : Int :=
  daysFromCivil y mo d * 86400000 + ((h * 60 + mi) * 60 + s) * 1000

/-- Spec-side reading of a local civil time (1-based month, in-range
components): epoch ms of `y-mo-d h:mi:s` in the zone with offset `tzOff`.
Used to state what "September 7, 2025, 10:42:05 local time" denotes. -/
def localCivilMs (tzOff y mo d h mi s : Int) : Int :=
  civilMs y mo d h mi s - tzOff

/-- `const LAST_N = 12`. -/
def LAST_N : Nat := 12

/-- `const REFRESH_INTERVAL = 5000`. -/
def REFRESH_INTERVAL : Nat := 5000

/-- A threshold registry entry: `{ label, value, color }`, with the optional
`dash` pattern the plugin and legend read (`line.dash || [6, 4]`). -/
structure ThresholdBand where
  label : String
  value : Int
  color : String
  dash : Option (List Nat)
deriving DecidableEq

/-- `TEMPERATURE_THRESHOLDS` (src/firebase.js lines 8-12). -/
def TEMPERATURE_THRESHOLDS : List ThresholdBand :=
  [⟨"Higher than Usual", 32, "#ef4444", none⟩,
   ⟨"Normal Temperature", 25, "#10b981", none⟩,
   ⟨"Lower than Usual", 18, "#3b82f6", none⟩]

/-- `LIGHT_THRESHOLDS` (src/firebase.js lines 14-19). -/
def LIGHT_THRESHOLDS : List ThresholdBand :=
  [⟨"Outdoor", 1000, "#f59e0b", none⟩,
   ⟨"Indoor", 300, "#22c55e", none⟩,
   ⟨"Dark Room", 10, "#3b82f6", none⟩,
   ⟨"No light", 0, "#6b7280", none⟩]

/-- The lines `thresholdLinesPlugin.afterDatasetsDraw` actually strokes, given
the y-scale bounds the chart library computed: each line is skipped by
`if (line.value < y.min || line.value > y.max) return;` and stroked otherwise. -/
def thresholdLinesDrawn (yMin yMax : Int) (lines : List ThresholdBand) : List ThresholdBand :=
  lines.filter (fun line => !(decide (line.value < yMin) || decide (line.value > yMax)))

/-- A record value from the JSON payload: `temperature`, `light_lux`, and the
optional `timestamp` fallback field (`none` when absent). Numbers are modelled
as integers; no claim depends on fractional metric values. -/
structure SensorValue where
  temperature : Int
  light_lux : Int
  timestamp : Option JSVal
deriving DecidableEq

/-- `parseTimestampFlexible(key) || parseTimestampFlexible(v?.timestamp)`:
a `Date` object is always truthy and a failed parse is `null`, so `||` takes
the key's parse when it succeeds and otherwise the fallback field's parse. -/
def resolveDt (tzOff : Int) (key : List Char) (v : SensorValue) : Option Int :=
  match parseTimestampFlexible tzOff (some (.str key)) with
  | some d => some d
  | none => parseTimestampFlexible tzOff v.timestamp

/-- An element of the `entries` array of `fetchData` after the filter:
`{ key, v, dt }` with a resolved (hence valid) timestamp. -/
structure Entry where
  key : List Char
  v : SensorValue
  dt : Int
deriving DecidableEq

/-- The comparator `(a, b) => b.dt - a.dt`: `a` sorts no later than `b` when
`b`'s date does not exceed `a`'s (newest first). -/
def newestFirst (a b : Entry) : Prop := b.dt ≤ a.dt

instance : DecidableRel newestFirst :=
  fun a b => inferInstanceAs (Decidable (b.dt ≤ a.dt))

instance : IsTotal Entry newestFirst :=
  ⟨fun a b => le_total b.dt a.dt⟩

instance : IsTrans Entry newestFirst :=
  ⟨fun _ _ _ hab hbc => le_trans hbc hab⟩

/-- The map-then-filter stage of `fetchData`: each `(key, v)` pair becomes
`{ key, v, dt }` and pairs with no resolved timestamp are dropped. The filter
`e.dt && !isNaN(e.dt.getTime())` reduces to `dt` being non-null because the
normalizer only returns valid dates (`parse_valid` below). -/
def rawEntries (tzOff : Int) (data : List (List Char × SensorValue)) : List Entry :=
  data.filterMap (fun kv => (resolveDt tzOff kv.1 kv.2).map (fun d => ⟨kv.1, kv.2, d⟩))

/-- The `entries` array of `fetchData`: map, filter, sort newest-first
(JS `Array.prototype.sort` with a consistent comparator is a stable sort,
modelled by insertion sort), `slice(0, LAST_N)`. -/
def pipelineEntries (tzOff : Int) (data : List (List Char × SensorValue)) : List Entry :=
  (List.insertionSort newestFirst (rawEntries tzOff data)).take LAST_N

/-- One dataset of the chart configuration. A `none` data point is the `NaN`
of the legend-only datasets: nothing is plotted there. -/
structure ChartDataset where
  label : String
  data : List (Option Int)
  borderColor : String
  borderDash : Option (List Nat)
  order : Nat
deriving DecidableEq

/-- The chart configuration `drawChart` passes to `new Chart`: axis labels
(short-format timestamps, represented by the dates they format), the datasets,
and the plugin option `thresholdLines: { lines: thresholds }`. -/
structure ChartConfig where
  labels : List Int
  datasets : List ChartDataset
  thresholdLines : List ThresholdBand
deriving DecidableEq

/-- `mainDataset` of `drawChart`. -/
def mkMainDataset (label : String) (values : List Int) (color : String) : ChartDataset :=
  ⟨label, values.map some, color, none, 1⟩

/-- One element of `thresholdLegendDatasets`: label and color of the band,
`data: [NaN]` so nothing is drawn, dashed border, order 99. -/
def mkLegendDataset (t : ThresholdBand) : ChartDataset :=
  ⟨t.label, [none], t.color, some (t.dash.getD [6, 4]), 99⟩

/-- The full configuration built in `drawChart`. -/
def mkChartConfig (label : String) (labels : List Int) (values : List Int)
    (color : String) (thresholds : List ThresholdBand) : ChartConfig :=
  ⟨labels, mkMainDataset label values color :: thresholds.map mkLegendDataset, thresholds⟩

/-- Rendered table content: the metric key restated in the header, the unit
suffix, and one row per entry holding the short-format timestamp (represented
by its date) and the displayed metric value. -/
structure TableContent where
  header : String
  unit : String
  rows : List (Int × Int)
deriving DecidableEq

/-- The dynamic property access `e.v[key]` of `updateTable`, which the program
only performs with the two metric keys. -/
def fieldOf (key : String) (v : SensorValue) : Int :=
  if key = "temperature" then v.temperature else v.light_lux

/-- Abstract DOM / chart state of the dashboard. For each mount point, `none`
means the element is absent from the document and `some c` that it is present
with content `c` (inner `none` = never rendered). `liveTemp` / `liveLight`
list the ids of the not-yet-destroyed chart instances per canvas, `tempChart`
and `lightChart` are the module-level handle variables, and `nextId` feeds
fresh instance ids. -/
structure DashState where
  latest_time : Option (Option Int)
  latest_temperature : Option (Option Int)
  latest_light : Option (Option Int)
  temperature_table : Option (Option TableContent)
  light_table : Option (Option TableContent)
  temperature_canvas : Bool
  light_canvas : Bool
  temperature_rendered : Option ChartConfig
  light_rendered : Option ChartConfig
  tempChart : Option Nat
  lightChart : Option Nat
  liveTemp : List Nat
  liveLight : List Nat
  nextId : Nat
deriving DecidableEq

/-- Embedding of `updateLatest` (src/firebase.js lines 134-140). Each mount is
accessed with a bare `document.getElementById(...).innerText = ...`: when the
element is absent a TypeError is thrown, modelled as `Except.error` carrying
the state as mutated so far (assignments already performed keep their effect). -/
def updateLatest (dt : Int) (v : SensorValue) (st : DashState) : Except DashState DashState :=
  match st.latest_time with
  | none => .error st
  | some _ =>
    let st1 := { st with latest_time := some (some dt) }
    match st1.latest_temperature with
    | none => .error st1
    | some _ =>
      let st2 := { st1 with latest_temperature := some (some v.temperature) }
      match st2.latest_light with
      | none => .error st2
      | some _ => .ok { st2 with latest_light := some (some v.light_lux) }

/-- Embedding of `updateTable` (src/firebase.js lines 143-165): guarded by
`if (!table) return;`; rebuilds the full content (header, then one row per
entry in the entries' newest-first order). -/
def updateTable (tableId : String) (entries : List Entry) (key : String)
    (unit : String) (st : DashState) : DashState :=
  if tableId = "temperature_table" then
    match st.temperature_table with
    | none => st
    | some _ =>
      let content := some (some (⟨key, unit, entries.map (fun e => (e.dt, fieldOf key e.v))⟩ : TableContent))
      { st with temperature_table := content }
  else if tableId = "light_table" then
    match st.light_table with
    | none => st
    | some _ =>
      let content := some (some (⟨key, unit, entries.map (fun e => (e.dt, fieldOf key e.v))⟩ : TableContent))
      { st with light_table := content }
  else st

/-- Embedding of `drawChart` (src/firebase.js lines 172-242): look up the
canvas (absent canvas: return, nothing destroyed), pick the threshold list by
`canvasId === "temperature_chart"`, destroy the previously stored instance,
build the configuration, create a fresh instance and store its handle. -/
def drawChart (canvasId : String) (label : String) (labels : List Int)
    (values : List Int) (color : String) (st : DashState) : DashState :=
  let ctxPresent :=
    if canvasId = "temperature_chart" then st.temperature_canvas
    else if canvasId = "light_chart" then st.light_canvas
    else false
  if ctxPresent = false then st
  else
    let isTemp := canvasId = "temperature_chart"
    let thresholds := if isTemp then TEMPERATURE_THRESHOLDS else LIGHT_THRESHOLDS
    let st1 :=
      if isTemp then
        match st.tempChart with
        | some old => { st with liveTemp := st.liveTemp.erase old }
        | none => st
      else
        match st.lightChart with
        | some old => { st with liveLight := st.liveLight.erase old }
        | none => st
    let cfg := mkChartConfig label labels values color thresholds
    let newId := st1.nextId
    if isTemp then
      { st1 with
        temperature_rendered := some cfg, tempChart := some newId,
        liveTemp := st1.liveTemp ++ [newId], nextId := newId + 1 }
    else
      { st1 with
        light_rendered := some cfg, lightChart := some newId,
        liveLight := st1.liveLight ++ [newId], nextId := newId + 1 }

/-- The chart label series of `fetchData`: short-format timestamps of the
entries, reversed to run oldest to latest. -/
def chartLabels (entries : List Entry) : List Int :=
  (entries.map (fun e => e.dt)).reverse

/-- Embedding of one `fetchData` cycle (src/firebase.js lines 94-132) after a
successful fetch/decode of `data` (`none` models a null JSON body, hit by
`if (!data) return;`). An exception escaping `updateLatest` is caught by the
surrounding try/catch, which only logs: the cycle ends with the state as
mutated so far. -/
def fetchCycle (tzOff : Int) (data : Option (List (List Char × SensorValue)))
    (st : DashState) : DashState :=
  match data with
  | none => st
  | some data =>
    match pipelineEntries tzOff data with
    | [] => st
    | latest :: rest =>
      let entries := latest :: rest
      let labels := chartLabels entries
      let tempValues := (entries.map (fun e => e.v.temperature)).reverse
      let lightValues := (entries.map (fun e => e.v.light_lux)).reverse
      match updateLatest latest.dt latest.v st with
      | .error stErr => stErr
      | .ok st1 =>
        let st2 := updateTable "temperature_table" entries "temperature" "°C" st1
        let st3 := updateTable "light_table" entries "light_lux" "lux" st2
        let st4 := drawChart "temperature_chart" "Temperature (°C)" labels tempValues
          "rgba(255,99,132,1)" st3
        drawChart "light_chart" "Light (lux)" labels lightValues
          "rgba(54,162,235,1)" st4

/-! ## Supporting lemmas -/

lemma dropWhile_append_all {α : Type} (p : α → Bool) (l₁ l₂ : List α)
    (h : ∀ a ∈ l₁, p a = true) :
    (l₁ ++ l₂).dropWhile p = l₂.dropWhile p := by
  induction l₁ with
  | nil => rfl
  | cons a t ih =>
    have ha : p a = true := h a (List.mem_cons_self a t)
    simp only [List.cons_append, List.dropWhile_cons, ha, if_true]
    exact ih fun x hx => h x (List.mem_cons_of_mem a hx)

lemma dropWhile_append_ne {α : Type} (p : α → Bool) (l₁ l₂ : List α)
    (h : l₁.dropWhile p ≠ []) :
    (l₁ ++ l₂).dropWhile p = l₁.dropWhile p ++ l₂ := by
  induction l₁ with
  | nil => simp at h
  | cons a t ih =>
    by_cases ha : p a = true
    · simp only [List.dropWhile_cons, ha, if_true] at h ⊢
      simp only [List.cons_append, List.dropWhile_cons, ha, if_true]
      exact ih h
    · have ha' : p a = false := by simpa using ha
      simp [List.dropWhile_cons, ha']

lemma all_of_dropWhile_nil {α : Type} (p : α → Bool) (l : List α)
    (h : l.dropWhile p = []) : ∀ x ∈ l, p x = true := by
  induction l with
  | nil => intro x hx; cases hx
  | cons a t ih =>
    intro x hx
    by_cases ha : p a = true
    · simp only [List.dropWhile_cons, ha, if_true] at h
      rcases List.mem_cons.mp hx with rfl | hxt
      · exact ha
      · exact ih h x hxt
    · have ha' : p a = false := by simpa using ha
      simp [List.dropWhile_cons, ha'] at h

lemma dropWhile_all_nil {α : Type} (p : α → Bool) (l : List α)
    (h : ∀ x ∈ l, p x = true) : l.dropWhile p = [] := by
  induction l with
  | nil => rfl
  | cons a t ih =>
    simp only [List.dropWhile_cons, h a (List.mem_cons_self a t), if_true]
    exact ih fun x hx => h x (List.mem_cons_of_mem a hx)

/-- Trimming strips exactly the surrounding whitespace: extra leading and
trailing whitespace around a string does not change its trimmed form. -/
lemma jsTrim_append (pre s post : List Char)
    (hpre : ∀ c ∈ pre, c.isWhitespace = true) (hpost : ∀ c ∈ post, c.isWhitespace = true) :
    jsTrim (pre ++ s ++ post) = jsTrim s := by
  unfold jsTrim
  rw [List.append_assoc, dropWhile_append_all _ pre _ hpre]
  by_cases hs : s.dropWhile Char.isWhitespace = []
  · have hws : ∀ x ∈ s ++ post, Char.isWhitespace x = true := by
      intro x hx
      rcases List.mem_append.mp hx with hxs | hxp
      · exact all_of_dropWhile_nil _ s hs x hxs
      · exact hpost x hxp
    rw [dropWhile_all_nil _ _ hws, hs]
  · rw [dropWhile_append_ne _ _ _ hs, List.reverse_append,
      dropWhile_append_all _ post.reverse _ (by simpa using hpost)]

lemma isDigit_not_isWhitespace {c : Char} (h : c.isDigit = true) :
    c.isWhitespace = false := by
  by_contra hw
  rw [Bool.not_eq_false] at hw
  simp only [Char.isWhitespace, Bool.or_eq_true, decide_eq_true_eq] at hw
  rcases hw with ((rfl | rfl) | rfl) | rfl <;> simp [Char.isDigit] at h

/-- An all-digit string has no surrounding whitespace: trimming keeps it. -/
lemma jsTrim_of_digits (s : List Char) (h : s.all Char.isDigit = true) :
    jsTrim s = s := by
  have hnw : ∀ (t : List Char), t.all Char.isDigit = true →
      t.dropWhile Char.isWhitespace = t := by
    intro t ht
    cases t with
    | nil => rfl
    | cons a u =>
      have ha : a.isDigit = true := (List.all_eq_true.mp ht) a (List.mem_cons_self a u)
      simp [List.dropWhile_cons, isDigit_not_isWhitespace ha]
  unfold jsTrim
  rw [hnw s h, hnw s.reverse (by simpa using h), List.reverse_reverse]

/-- A dash-free string splits into the single group that is itself. -/
lemma splitDash_of_no_dash (s : List Char) (h : ∀ c ∈ s, c ≠ '-') :
    splitDash s = [s] := by
  induction s with
  | nil => rfl
  | cons a t ih =>
    have ha : ¬(a = '-') := h a (List.mem_cons_self a t)
    rw [splitDash, if_neg ha, ih fun c hc => h c (List.mem_cons_of_mem a hc)]

lemma isDigit_ne_dash {c : Char} (h : c.isDigit = true) : c ≠ '-' := by
  intro rfl_eq
  subst rfl_eq
  simp [Char.isDigit] at h

/-- An all-digit string cannot match the structured-literal pattern. -/
lemma structuredMatch_of_digits (s : List Char) (h : s.all Char.isDigit = true) :
    structuredMatch s = none := by
  rw [structuredMatch,
    splitDash_of_no_dash s fun c hc => isDigit_ne_dash ((List.all_eq_true.mp h) c hc)]

/-- The normalizer only returns valid dates: both branches guard the result
with `isNaN(d.getTime())`. This is why `fetchData`'s extra filter conjunct
`!isNaN(e.dt.getTime())` is subsumed by non-nullness. -/
lemma parse_valid (tzOff : Int) (ts : Option JSVal) (ms : Int)
    (h : parseTimestampFlexible tzOff ts = some ms) : dateTimeValid ms = true := by
  cases ts with
  | none => simp [parseTimestampFlexible] at h
  | some v =>
    rw [parseTimestampFlexible] at h
    dsimp only at h
    by_cases he : isEpochShape (jsTrim (jsToString v)) = true
    · rw [if_pos he] at h
      split_ifs at h with hv
      · injection h with h2
        subst h2
        exact hv
    · rw [if_neg he] at h
      split at h
      · split_ifs at h with hv
        · injection h with h2
          subst h2
          exact hv
      · simp at h

/-- Case A characterized: on an epoch-shaped (trimmed) string the normalizer
returns the decimal value in seconds times 1000, guarded by date validity. -/
lemma parse_epoch (tzOff : Int) (s : List Char)
    (h : isEpochShape (jsTrim s) = true) :
    parseTimestampFlexible tzOff (some (.str s)) =
      (if dateTimeValid ((digitsToNat (jsTrim s) : Int) * 1000) = true
       then some ((digitsToNat (jsTrim s) : Int) * 1000) else none) := by
  simp [parseTimestampFlexible, jsToString, h]

/-- Case B characterized: on a structured-literal match the normalizer
returns the local-time construction over the captured components, guarded by
date validity. -/
lemma parse_structured (tzOff : Int) (s : List Char) (dd mm yyyy hh mi ss : Nat)
    (h1 : isEpochShape (jsTrim s) = false)
    (h2 : structuredMatch (jsTrim s) = some (dd, mm, yyyy, hh, mi, ss)) :
    parseTimestampFlexible tzOff (some (.str s)) =
      (if dateTimeValid (makeLocalMs tzOff yyyy ((mm : Int) - 1) dd hh mi ss) = true
       then some (makeLocalMs tzOff yyyy ((mm : Int) - 1) dd hh mi ss) else none) := by
  simp [parseTimestampFlexible, jsToString, h1, h2]

/-! ## Claims -/

/-- C10: `parseTimestampFlexible` is total over its public interface. A null
or undefined input (`ts == null`) yields null; surrounding whitespace is
trimmed before matching and never changes the result; an all-digit string of
fewer than nine digits matches neither encoding and yields null. Totality
itself — every input produces a timestamp or null, never an exception — holds
by construction: the embedding is a total function into `Option Int` covering
null, numbers and arbitrary strings. -/
theorem parseTimestampFlexible_total (tzOff : Int) :
    parseTimestampFlexible tzOff none = none
    ∧ (∀ s pre post : List Char, (∀ c ∈ pre, c.isWhitespace = true) →
        (∀ c ∈ post, c.isWhitespace = true) →
        parseTimestampFlexible tzOff (some (.str (pre ++ s ++ post))) =
          parseTimestampFlexible tzOff (some (.str s)))
    ∧ (∀ s : List Char, s.all Char.isDigit = true → s.length < 9 →
        parseTimestampFlexible tzOff (some (.str s)) = none) := by
  refine ⟨rfl, ?trimmed, ?short⟩
  · intro s pre post hpre hpost
    simp only [parseTimestampFlexible, jsToString]
    rw [jsTrim_append pre s post hpre hpost]
  · intro s hd hl
    have he : isEpochShape s = false := by
      have : ¬(9 ≤ s.length) := by omega
      simp [isEpochShape, this]
    simp [parseTimestampFlexible, jsToString, jsTrim_of_digits s hd, he,
      structuredMatch_of_digits s hd]

/-- Witness for C10 at concrete inputs: whitespace around `"1000000000"` is
ignored, and the 8-digit string `"12345678"` yields null. -/
theorem parseTimestampFlexible_total_witness :
    parseTimestampFlexible 0 (some (.str ([' '] ++ "1000000000".toList ++ [' ']))) =
      parseTimestampFlexible 0 (some (.str ("1000000000".toList)))
    ∧ parseTimestampFlexible 0 (some (.str ("12345678".toList))) = none :=
  ⟨(parseTimestampFlexible_total 0).2.1 ("1000000000".toList) [' '] [' ']
      (by decide) (by decide),
   (parseTimestampFlexible_total 0).2.2 ("12345678".toList) (by decide) (by decide)⟩

/-- C1 counterexample: the claim says `parseTimestampFlexible` returns null on
`"32-13-2025-1-1-1"` (day 32, month 13), but the `new Date(year, month, ...)`
construction rolls out-of-range components over instead of rejecting them, so
the normalizer returns a non-null timestamp (February 1, 2026, 01:01:01 local
time; here evaluated in the zone with offset 0). -/
theorem parse_invalid_components_counterexample :
    parseTimestampFlexible 0 (some (.str ("32-13-2025-1-1-1".toList))) ≠ none := by
  decide

/-- C1 amended: a string that (after trimming) matches neither the
epoch-seconds shape nor the structured-literal pattern yields null; but a
structured-literal string whose components denote an invalid calendar date is
not rejected — the components roll over, so `"32-13-2025-1-1-1"` yields the
local timestamp February 1, 2026, 01:01:01 (for any real-world zone offset). -/
theorem parse_malformed_amended (tzOff : Int) (hoff : |tzOff| ≤ 86400000) :
    (∀ s : List Char, isEpochShape (jsTrim s) = false →
        structuredMatch (jsTrim s) = none →
        parseTimestampFlexible tzOff (some (.str s)) = none)
    ∧ parseTimestampFlexible tzOff (some (.str ("32-13-2025-1-1-1".toList))) =
        some (localCivilMs tzOff 2026 2 1 1 1 1) := by
  constructor
  · intro s h1 h2
    simp [parseTimestampFlexible, jsToString, h1, h2]
  · have e2 : isEpochShape (jsTrim ("32-13-2025-1-1-1".toList)) = false := by decide
    have e3 : structuredMatch (jsTrim ("32-13-2025-1-1-1".toList)) =
        some (32, 13, 2025, 1, 1, 1) := by decide
    rw [parse_structured tzOff _ 32 13 2025 1 1 1 e2 e3]
    have hc : makeDayTimeMs 2025 12 32 1 1 1 = 1769907661000 := by decide
    have hc2 : civilMs 2026 2 1 1 1 1 = 1769907661000 := by decide
    have habs := abs_le.mp hoff
    have hm : makeLocalMs tzOff ((2025 : Nat) : Int) (((13 : Nat) : Int) - 1)
        ((32 : Nat) : Int) ((1 : Nat) : Int) ((1 : Nat) : Int) ((1 : Nat) : Int) =
        1769907661000 - tzOff := by
      rw [makeLocalMs]
      push_cast
      norm_num [hc]
    rw [hm]
    have hv : dateTimeValid (1769907661000 - tzOff) = true := by
      simp only [dateTimeValid, maxDateMs, Bool.and_eq_true, decide_eq_true_eq]
      omega
    rw [if_pos hv, localCivilMs, hc2]

/-- Witness for the amended C1 at zone offset 0: `"abc"` yields null, and the
rolled-over literal yields February 1, 2026, 01:01:01. -/
theorem parse_malformed_amended_witness :
    parseTimestampFlexible 0 (some (.str ("abc".toList))) = none
    ∧ parseTimestampFlexible 0 (some (.str ("32-13-2025-1-1-1".toList))) =
        some (localCivilMs 0 2026 2 1 1 1 1) :=
  ⟨(parse_malformed_amended 0 (by decide)).1 ("abc".toList) (by decide) (by decide),
   (parse_malformed_amended 0 (by decide)).2⟩

/-- C3 counterexample: the claim says every string of 9 or more decimal
digits yields a non-null timestamp of that many seconds, but the 13-digit
string `"9999999999999"` denotes 9.999999e15 ms, beyond the 8.64e15 ms `Date`
range, so `isNaN(d.getTime())` holds and the normalizer returns null. -/
theorem parse_epoch_overflow_counterexample :
    parseTimestampFlexible 0 (some (.str ("9999999999999".toList))) = none := by
  decide

/-- C3 amended: an all-digit string of 9 or more digits yields exactly its
decimal value in seconds after the epoch (value times 1000 ms) when that
value is at most 8,640,000,000,000 seconds (the `Date` range bound), and null
beyond it. -/
theorem parse_epoch_amended (tzOff : Int) (s : List Char)
    (hd : s.all Char.isDigit = true) (hl : 9 ≤ s.length) :
    parseTimestampFlexible tzOff (some (.str s)) =
      (if digitsToNat s ≤ 8640000000000 then some ((digitsToNat s : Int) * 1000)
       else none) := by
  have ht := jsTrim_of_digits s hd
  have he : isEpochShape (jsTrim s) = true := by
    rw [ht]
    simp [isEpochShape, hd, hl]
  rw [parse_epoch tzOff s he, ht]
  have hiff : (dateTimeValid ((digitsToNat s : Int) * 1000) = true) ↔
      (digitsToNat s ≤ 8640000000000) := by
    simp only [dateTimeValid, maxDateMs, Bool.and_eq_true, decide_eq_true_eq]
    omega
  exact if_congr hiff rfl rfl

/-- Witness for the amended C3: the 10-digit string `"1757241725"` is in
range and yields that many seconds after the epoch. -/
theorem parse_epoch_amended_witness :
    parseTimestampFlexible 0 (some (.str ("1757241725".toList))) =
      (if digitsToNat ("1757241725".toList) ≤ 8640000000000
       then some ((digitsToNat ("1757241725".toList) : Int) * 1000) else none) :=
  parse_epoch_amended 0 ("1757241725".toList) (by decide) (by decide)

/-- C4: the structured literal `"7-9-2025-10-42-5"` maps day-month-year-hour-
minute-second with the month shifted to zero-based, yielding September 7,
2025, 10:42:05 local time (any real-world zone offset). -/
theorem parse_structured_literal (tzOff : Int) (hoff : |tzOff| ≤ 86400000) :
    parseTimestampFlexible tzOff (some (.str ("7-9-2025-10-42-5".toList))) =
      some (localCivilMs tzOff 2025 9 7 10 42 5) := by
  have e2 : isEpochShape (jsTrim ("7-9-2025-10-42-5".toList)) = false := by decide
  have e3 : structuredMatch (jsTrim ("7-9-2025-10-42-5".toList)) =
      some (7, 9, 2025, 10, 42, 5) := by decide
  rw [parse_structured tzOff _ 7 9 2025 10 42 5 e2 e3]
  have hc : makeDayTimeMs 2025 8 7 10 42 5 = 1757241725000 := by decide
  have hc2 : civilMs 2025 9 7 10 42 5 = 1757241725000 := by decide
  have habs := abs_le.mp hoff
  have hm : makeLocalMs tzOff ((2025 : Nat) : Int) (((9 : Nat) : Int) - 1)
      ((7 : Nat) : Int) ((10 : Nat) : Int) ((42 : Nat) : Int) ((5 : Nat) : Int) =
      1757241725000 - tzOff := by
    rw [makeLocalMs]
    push_cast
    norm_num [hc]
  rw [hm]
  have hv : dateTimeValid (1757241725000 - tzOff) = true := by
    simp only [dateTimeValid, maxDateMs, Bool.and_eq_true, decide_eq_true_eq]
    omega
  rw [if_pos hv, localCivilMs, hc2]

/-- Witness for C4 at zone offset 0. -/
theorem parse_structured_literal_witness :
    parseTimestampFlexible 0 (some (.str ("7-9-2025-10-42-5".toList))) =
      some (localCivilMs 0 2025 9 7 10 42 5) :=
  parse_structured_literal 0 (by decide)

/-- C5: a record's timestamp is resolved from its key first; the value's
`timestamp` field is consulted only when the key fails; and a record failing
both is excluded from the output window. -/
theorem resolve_order_and_drop (tzOff : Int) (key : List Char) (v : SensorValue)
    (data : List (List Char × SensorValue)) :
    (∀ d : Int, parseTimestampFlexible tzOff (some (.str key)) = some d →
        resolveDt tzOff key v = some d)
    ∧ (parseTimestampFlexible tzOff (some (.str key)) = none →
        resolveDt tzOff key v = parseTimestampFlexible tzOff v.timestamp)
    ∧ (resolveDt tzOff key v = none →
        ∀ e ∈ pipelineEntries tzOff data, ¬(e.key = key ∧ e.v = v)) := by
  refine ⟨?byKey, ?fallback, ?dropped⟩
  · intro d hd
    rw [resolveDt, hd]
  · intro hn
    rw [resolveDt, hn]
  · intro hn e he hkv
    obtain ⟨hk, hv⟩ := hkv
    have h1 : e ∈ List.insertionSort newestFirst (rawEntries tzOff data) :=
      List.take_subset LAST_N _ he
    have h2 : e ∈ rawEntries tzOff data :=
      (List.perm_insertionSort newestFirst _).subset h1
    obtain ⟨kv, hmem, hfe⟩ := List.mem_filterMap.mp h2
    obtain ⟨d, hd, hde⟩ := Option.map_eq_some'.mp hfe
    have hk' : kv.1 = key := by rw [← hk, ← hde]
    have hv' : kv.2 = v := by rw [← hv, ← hde]
    rw [hk', hv', hn] at hd
    cases hd

/-- Witness for C5: the key `"abc"` fails, so resolution falls back to the
(absent) timestamp field, and the record is excluded from the window. -/
theorem resolve_order_and_drop_witness :
    resolveDt 0 ("abc".toList) ⟨1, 2, none⟩ =
      parseTimestampFlexible 0 (⟨1, 2, none⟩ : SensorValue).timestamp
    ∧ ∀ e ∈ pipelineEntries 0 [(("abc".toList), ⟨1, 2, none⟩)],
        ¬(e.key = "abc".toList ∧ e.v = ⟨1, 2, none⟩) :=
  ⟨(resolve_order_and_drop 0 ("abc".toList) ⟨1, 2, none⟩ []).2.1 (by decide),
   fun e he h =>
     (resolve_order_and_drop 0 ("abc".toList) ⟨1, 2, none⟩
       [(("abc".toList), ⟨1, 2, none⟩)]).2.2 (by decide) e he h⟩

lemma rawEntries_nil (tzOff : Int) (data : List (List Char × SensorValue))
    (h : ∀ kv ∈ data, resolveDt tzOff kv.1 kv.2 = none) :
    rawEntries tzOff data = [] := by
  induction data with
  | nil => rfl
  | cons a t ih =>
    have ha := h a (List.mem_cons_self a t)
    rw [rawEntries] at ih ⊢
    rw [List.filterMap_cons]
    simp only [ha, Option.map_none']
    exact ih fun kv hkv => h kv (List.mem_cons_of_mem a hkv)

/-- C6: when every record of the dataset fails normalization, the filtered
window is empty and the fetch cycle performs no rendering at all: the
resulting dashboard state — tile, tables, charts and chart handles — is
exactly the state before the cycle. -/
theorem no_data_no_render (tzOff : Int) (data : List (List Char × SensorValue))
    (st : DashState) (h : ∀ kv ∈ data, resolveDt tzOff kv.1 kv.2 = none) :
    fetchCycle tzOff (some data) st = st := by
  have hp : pipelineEntries tzOff data = [] := by
    rw [pipelineEntries, rawEntries_nil tzOff data h]
    rfl
  simp [fetchCycle, hp]

/-- Witness for C6: a one-record dataset whose key and value both fail to
parse leaves a concrete dashboard state untouched. -/
theorem no_data_no_render_witness :
    fetchCycle 0 (some [(("abc".toList), ⟨1, 2, none⟩)])
      ⟨some none, some none, some none, some none, some none, true, true,
        none, none, none, none, [], [], 0⟩ =
      ⟨some none, some none, some none, some none, some none, true, true,
        none, none, none, none, [], [], 0⟩ :=
  no_data_no_render 0 [(("abc".toList), ⟨1, 2, none⟩)] _ (by decide)

lemma rawEntries_length (tzOff : Int) (data : List (List Char × SensorValue))
    (h : ∀ kv ∈ data, (resolveDt tzOff kv.1 kv.2).isSome = true) :
    (rawEntries tzOff data).length = data.length := by
  induction data with
  | nil => rfl
  | cons a t ih =>
    obtain ⟨d, hd⟩ := Option.isSome_iff_exists.mp (h a (List.mem_cons_self a t))
    rw [rawEntries] at ih ⊢
    rw [List.filterMap_cons]
    simp only [hd, Option.map_some', List.length_cons]
    rw [ih fun kv hkv => h kv (List.mem_cons_of_mem a hkv)]

lemma rawEntries_pairwise_ne (tzOff : Int) (data : List (List Char × SensorValue))
    (hdist : data.Pairwise
      (fun a b => resolveDt tzOff a.1 a.2 ≠ resolveDt tzOff b.1 b.2)) :
    (rawEntries tzOff data).Pairwise (fun x y => x.dt ≠ y.dt) := by
  rw [rawEntries, List.pairwise_filterMap]
  refine hdist.imp ?_
  intro a b hab x hx y hy heq
  rw [Option.mem_def] at hx hy
  obtain ⟨da, hda, hxa⟩ := Option.map_eq_some'.mp hx
  obtain ⟨db, hdb, hyb⟩ := Option.map_eq_some'.mp hy
  have hxdt : x.dt = da := by rw [← hxa]
  have hydt : y.dt = db := by rw [← hyb]
  apply hab
  rw [hda, hdb, ← hxdt, ← hydt, heq]

/-- C2: for a dataset of 20 records that all normalize to pairwise-distinct
timestamps, the pipeline window has exactly `LAST_N = 12` entries, strictly
newest-first; the chart series are the window reversed, hence strictly
oldest-first. -/
theorem pipeline_window (tzOff : Int) (data : List (List Char × SensorValue))
    (hlen : data.length = 20)
    (hvalid : ∀ kv ∈ data, (resolveDt tzOff kv.1 kv.2).isSome = true)
    (hdist : data.Pairwise
      (fun a b => resolveDt tzOff a.1 a.2 ≠ resolveDt tzOff b.1 b.2)) :
    (pipelineEntries tzOff data).length = 12
    ∧ (pipelineEntries tzOff data).Pairwise (fun a b => b.dt < a.dt)
    ∧ chartLabels (pipelineEntries tzOff data) =
        ((pipelineEntries tzOff data).reverse).map (fun e => e.dt)
    ∧ ((pipelineEntries tzOff data).reverse).Pairwise (fun a b => a.dt < b.dt) := by
  have hperm := List.perm_insertionSort newestFirst (rawEntries tzOff data)
  have hsortlen :
      (List.insertionSort newestFirst (rawEntries tzOff data)).length = 20 := by
    rw [hperm.length_eq, rawEntries_length tzOff data hvalid, hlen]
  have hsorted := List.sorted_insertionSort newestFirst (rawEntries tzOff data)
  have hne : (List.insertionSort newestFirst (rawEntries tzOff data)).Pairwise
      (fun x y => x.dt ≠ y.dt) :=
    (hperm.pairwise_iff fun h => h.symm).mpr (rawEntries_pairwise_ne tzOff data hdist)
  have hstrict : (List.insertionSort newestFirst (rawEntries tzOff data)).Pairwise
      (fun a b => b.dt < a.dt) :=
    (hsorted.and hne).imp fun h => lt_of_le_of_ne h.1 h.2.symm
  have htake : (pipelineEntries tzOff data).Pairwise (fun a b => b.dt < a.dt) :=
    List.Pairwise.sublist (List.take_sublist LAST_N _) hstrict
  refine ⟨?_, htake, ?_, ?_⟩
  · rw [pipelineEntries, List.length_take, hsortlen]
    rfl
  · rw [chartLabels, List.map_reverse]
  · exact List.pairwise_reverse.mpr htake

/-- A concrete dataset of 20 records with distinct epoch-second keys. -/
def windowWitnessData : List (List Char × SensorValue) :=
  [("1000000000".toList, ⟨20, 100, none⟩), ("1000000001".toList, ⟨20, 100, none⟩),
   ("1000000002".toList, ⟨20, 100, none⟩), ("1000000003".toList, ⟨20, 100, none⟩),
   ("1000000004".toList, ⟨20, 100, none⟩), ("1000000005".toList, ⟨20, 100, none⟩),
   ("1000000006".toList, ⟨20, 100, none⟩), ("1000000007".toList, ⟨20, 100, none⟩),
   ("1000000008".toList, ⟨20, 100, none⟩), ("1000000009".toList, ⟨20, 100, none⟩),
   ("1000000010".toList, ⟨20, 100, none⟩), ("1000000011".toList, ⟨20, 100, none⟩),
   ("1000000012".toList, ⟨20, 100, none⟩), ("1000000013".toList, ⟨20, 100, none⟩),
   ("1000000014".toList, ⟨20, 100, none⟩), ("1000000015".toList, ⟨20, 100, none⟩),
   ("1000000016".toList, ⟨20, 100, none⟩), ("1000000017".toList, ⟨20, 100, none⟩),
   ("1000000018".toList, ⟨20, 100, none⟩), ("1000000019".toList, ⟨20, 100, none⟩)]

/-- Witness for C2 at the concrete 20-record dataset. -/
theorem pipeline_window_witness :
    (pipelineEntries 0 windowWitnessData).length = 12
    ∧ (pipelineEntries 0 windowWitnessData).Pairwise (fun a b => b.dt < a.dt)
    ∧ chartLabels (pipelineEntries 0 windowWitnessData) =
        ((pipelineEntries 0 windowWitnessData).reverse).map (fun e => e.dt)
    ∧ ((pipelineEntries 0 windowWitnessData).reverse).Pairwise
        (fun a b => a.dt < b.dt) :=
  pipeline_window 0 windowWitnessData (by decide) (by decide) (by decide)

lemma updateLatest_eq (dt : Int) (v : SensorValue) (st : DashState) :
    updateLatest dt v st =
      match st.latest_time, st.latest_temperature, st.latest_light with
      | none, _, _ => .error st
      | some _, none, _ => .error { st with latest_time := some (some dt) }
      | some _, some _, none =>
          .error { st with
            latest_time := some (some dt),
            latest_temperature := some (some v.temperature) }
      | some _, some _, some _ =>
          .ok { st with
            latest_time := some (some dt),
            latest_temperature := some (some v.temperature),
            latest_light := some (some v.light_lux) } := by
  obtain ⟨f1, f2, f3, f4, f5, f6, f7, f8, f9, f10, f11, f12, f13, f14⟩ := st
  cases f1 <;> cases f2 <;> cases f3 <;> rfl

lemma updateTable_temperature (entries : List Entry) (key unit : String)
    (st : DashState) :
    updateTable "temperature_table" entries key unit st =
      match st.temperature_table with
      | none => st
      | some _ =>
        let content := some (some (⟨key, unit, entries.map (fun e => (e.dt, fieldOf key e.v))⟩ : TableContent))
        { st with temperature_table := content } := by
  rw [updateTable, if_pos rfl]

lemma updateTable_light (entries : List Entry) (key unit : String) (st : DashState) :
    updateTable "light_table" entries key unit st =
      match st.light_table with
      | none => st
      | some _ =>
        let content := some (some (⟨key, unit, entries.map (fun e => (e.dt, fieldOf key e.v))⟩ : TableContent))
        { st with light_table := content } := by
  rw [updateTable, if_neg (by decide), if_pos rfl]

lemma drawChart_temperature (label : String) (labels values : List Int)
    (color : String) (st : DashState) :
    drawChart "temperature_chart" label labels values color st =
      (if st.temperature_canvas = false then st
       else
         let st1 :=
           match st.tempChart with
           | some old => { st with liveTemp := st.liveTemp.erase old }
           | none => st
         { st1 with
           temperature_rendered :=
             some (mkChartConfig label labels values color TEMPERATURE_THRESHOLDS),
           tempChart := some st1.nextId,
           liveTemp := st1.liveTemp ++ [st1.nextId],
           nextId := st1.nextId + 1 }) := by
  rw [drawChart]
  rfl

lemma drawChart_light (label : String) (labels values : List Int)
    (color : String) (st : DashState) :
    drawChart "light_chart" label labels values color st =
      (if st.light_canvas = false then st
       else
         let st1 :=
           match st.lightChart with
           | some old => { st with liveLight := st.liveLight.erase old }
           | none => st
         { st1 with
           light_rendered :=
             some (mkChartConfig label labels values color LIGHT_THRESHOLDS),
           lightChart := some st1.nextId,
           liveLight := st1.liveLight ++ [st1.nextId],
           nextId := st1.nextId + 1 }) := by
  rw [drawChart]
  rfl

/-- The chart-handle invariant: the live instances of each canvas are exactly
the one the stored module-level handle points to (none before the first
render, one afterwards). -/
def chartHandlesWF (st : DashState) : Prop :=
  st.liveTemp = st.tempChart.toList ∧ st.liveLight = st.lightChart.toList

lemma updateLatest_wf (dt : Int) (v : SensorValue) (st : DashState)
    (h : chartHandlesWF st) :
    (∀ e, updateLatest dt v st = .error e → chartHandlesWF e)
    ∧ (∀ o, updateLatest dt v st = .ok o → chartHandlesWF o) := by
  obtain ⟨h1, h2⟩ := h
  rw [updateLatest_eq]
  rcases st.latest_time with _ | c1 <;> rcases st.latest_temperature with _ | c2 <;>
    rcases st.latest_light with _ | c3 <;>
    exact ⟨fun e he => by cases he <;> exact ⟨h1, h2⟩,
           fun o ho => by cases ho <;> exact ⟨h1, h2⟩⟩

lemma updateTable_temperature_wf (entries : List Entry) (key unit : String)
    (st : DashState) (h : chartHandlesWF st) :
    chartHandlesWF (updateTable "temperature_table" entries key unit st) := by
  rw [updateTable_temperature]
  cases st.temperature_table <;> exact h

lemma updateTable_light_wf (entries : List Entry) (key unit : String)
    (st : DashState) (h : chartHandlesWF st) :
    chartHandlesWF (updateTable "light_table" entries key unit st) := by
  rw [updateTable_light]
  cases st.light_table <;> exact h

lemma drawChart_temperature_wf (label : String) (labels values : List Int)
    (color : String) (st : DashState) (h : chartHandlesWF st) :
    chartHandlesWF (drawChart "temperature_chart" label labels values color st) := by
  obtain ⟨h1, h2⟩ := h
  rw [drawChart_temperature]
  by_cases hc : st.temperature_canvas = false
  · rw [if_pos hc]
    exact ⟨h1, h2⟩
  · rw [if_neg hc]
    rcases htc : st.tempChart with _ | old <;> rw [htc] at h1 <;>
      simp only [Option.toList] at h1 <;>
      exact ⟨by simp [chartHandlesWF, h1], by simp [chartHandlesWF, h2]⟩

lemma drawChart_light_wf (label : String) (labels values : List Int)
    (color : String) (st : DashState) (h : chartHandlesWF st) :
    chartHandlesWF (drawChart "light_chart" label labels values color st) := by
  obtain ⟨h1, h2⟩ := h
  rw [drawChart_light]
  by_cases hc : st.light_canvas = false
  · rw [if_pos hc]
    exact ⟨h1, h2⟩
  · rw [if_neg hc]
    rcases hlc : st.lightChart with _ | old <;> rw [hlc] at h2 <;>
      simp only [Option.toList] at h2 <;>
      exact ⟨by simp [chartHandlesWF, h1], by simp [chartHandlesWF, h2]⟩

lemma fetchCycle_wf (tzOff : Int) (data : Option (List (List Char × SensorValue)))
    (st : DashState) (h : chartHandlesWF st) :
    chartHandlesWF (fetchCycle tzOff data st) := by
  rw [fetchCycle.eq_def]
  cases data with
  | none => exact h
  | some d =>
    dsimp only
    cases pipelineEntries tzOff d with
    | nil => exact h
    | cons latest rest =>
      dsimp only
      obtain ⟨herr, hok⟩ := updateLatest_wf latest.dt latest.v st h
      rcases hul : updateLatest latest.dt latest.v st with e | o
      · exact herr e hul
      · exact drawChart_light_wf _ _ _ _ _
          (drawChart_temperature_wf _ _ _ _ _
            (updateTable_light_wf _ _ _ _
              (updateTable_temperature_wf _ _ _ _ (hok o hul))))

/-- C9: starting from any state satisfying the handle invariant (the initial
state in particular: null handles, no instances), any sequence of fetch/render
cycles preserves it, so at most one live chart instance exists per canvas:
`drawChart` destroys the stored instance before creating and storing the new
one. -/
theorem chart_instances_no_accumulation (st : DashState) (h : chartHandlesWF st)
    (cycles : List (Int × Option (List (List Char × SensorValue)))) :
    chartHandlesWF (cycles.foldl (fun s c => fetchCycle c.1 c.2 s) st)
    ∧ (cycles.foldl (fun s c => fetchCycle c.1 c.2 s) st).liveTemp.length ≤ 1
    ∧ (cycles.foldl (fun s c => fetchCycle c.1 c.2 s) st).liveLight.length ≤ 1 := by
  have hwf : chartHandlesWF (cycles.foldl (fun s c => fetchCycle c.1 c.2 s) st) := by
    induction cycles generalizing st with
    | nil => exact h
    | cons c t ih => exact ih _ (fetchCycle_wf c.1 c.2 st h)
  refine ⟨hwf, ?_, ?_⟩
  · rw [hwf.1]
    cases (cycles.foldl (fun s c => fetchCycle c.1 c.2 s) st).tempChart <;>
      simp [Option.toList]
  · rw [hwf.2]
    cases (cycles.foldl (fun s c => fetchCycle c.1 c.2 s) st).lightChart <;>
      simp [Option.toList]

/-- Witness for C9: two successive render cycles on the same dataset from the
initial state (null handles, no live instances) leave the invariant intact
and at most one live instance per canvas. -/
theorem chart_instances_no_accumulation_witness :
    chartHandlesWF
      ([((0 : Int), some [(("1000000000".toList : List Char), (⟨20, 100, none⟩ : SensorValue))]),
        ((0 : Int), some [(("1000000000".toList : List Char), (⟨20, 100, none⟩ : SensorValue))])].foldl
        (fun s c => fetchCycle c.1 c.2 s)
        ⟨some none, some none, some none, some none, some none, true, true,
          none, none, none, none, [], [], 0⟩)
    ∧ (([((0 : Int), some [(("1000000000".toList : List Char), (⟨20, 100, none⟩ : SensorValue))]),
        ((0 : Int), some [(("1000000000".toList : List Char), (⟨20, 100, none⟩ : SensorValue))])].foldl
        (fun s c => fetchCycle c.1 c.2 s)
        ⟨some none, some none, some none, some none, some none, true, true,
          none, none, none, none, [], [], 0⟩)).liveTemp.length ≤ 1
    ∧ (([((0 : Int), some [(("1000000000".toList : List Char), (⟨20, 100, none⟩ : SensorValue))]),
        ((0 : Int), some [(("1000000000".toList : List Char), (⟨20, 100, none⟩ : SensorValue))])].foldl
        (fun s c => fetchCycle c.1 c.2 s)
        ⟨some none, some none, some none, some none, some none, true, true,
          none, none, none, none, [], [], 0⟩)).liveLight.length ≤ 1 :=
  chart_instances_no_accumulation
    ⟨some none, some none, some none, some none, some none, true, true,
      none, none, none, none, [], [], 0⟩ ⟨rfl, rfl⟩ _

/-- C7: for any chart configuration `drawChart` builds, a threshold band's
overlay line is stroked by the plugin iff its value lies within the computed
vertical axis range (inclusive), while the band always contributes a
legend-only dataset carrying its label and color whose single data point is
`NaN`, plotting nothing. -/
theorem threshold_draw_iff_in_range (yMin yMax : Int) (label : String)
    (labels values : List Int) (color : String)
    (thresholds : List ThresholdBand) (t : ThresholdBand) (ht : t ∈ thresholds) :
    (t ∈ thresholdLinesDrawn yMin yMax
        (mkChartConfig label labels values color thresholds).thresholdLines ↔
      yMin ≤ t.value ∧ t.value ≤ yMax)
    ∧ ∃ ds ∈ (mkChartConfig label labels values color thresholds).datasets,
        ds.label = t.label ∧ ds.borderColor = t.color ∧ ds.data = [none] := by
  constructor
  · show t ∈ thresholdLinesDrawn yMin yMax thresholds ↔ _
    rw [thresholdLinesDrawn, List.mem_filter]
    simp only [ht, true_and, Bool.not_eq_true', Bool.or_eq_false_iff,
      decide_eq_false_iff_not, not_lt]
  · exact ⟨mkLegendDataset t,
      List.mem_cons_of_mem _ (List.mem_map_of_mem mkLegendDataset ht),
      rfl, rfl, rfl⟩

/-- Witness for C7: in the temperature chart with axis range 20..40, the
band at 32 is within range and appears in the legend. -/
theorem threshold_draw_iff_in_range_witness :
    ((⟨"Higher than Usual", 32, "#ef4444", none⟩ : ThresholdBand) ∈
        thresholdLinesDrawn 20 40
          (mkChartConfig "Temperature (°C)" [] [] "rgba(255,99,132,1)"
            TEMPERATURE_THRESHOLDS).thresholdLines ↔
      (20 : Int) ≤ (⟨"Higher than Usual", 32, "#ef4444", none⟩ : ThresholdBand).value
        ∧ (⟨"Higher than Usual", 32, "#ef4444", none⟩ : ThresholdBand).value ≤ 40)
    ∧ ∃ ds ∈ (mkChartConfig "Temperature (°C)" [] [] "rgba(255,99,132,1)"
          TEMPERATURE_THRESHOLDS).datasets,
        ds.label = (⟨"Higher than Usual", 32, "#ef4444", none⟩ : ThresholdBand).label
        ∧ ds.borderColor =
            (⟨"Higher than Usual", 32, "#ef4444", none⟩ : ThresholdBand).color
        ∧ ds.data = [none] :=
  threshold_draw_iff_in_range 20 40 "Temperature (°C)" [] [] "rgba(255,99,132,1)"
    TEMPERATURE_THRESHOLDS ⟨"Higher than Usual", 32, "#ef4444", none⟩
    (List.mem_cons_self _ _)

lemma updateTable_temperature_fields (entries : List Entry) (key unit : String)
    (st : DashState) :
    (updateTable "temperature_table" entries key unit st).latest_time = st.latest_time
    ∧ (updateTable "temperature_table" entries key unit st).latest_temperature = st.latest_temperature
    ∧ (updateTable "temperature_table" entries key unit st).latest_light = st.latest_light
    ∧ (updateTable "temperature_table" entries key unit st).light_table = st.light_table
    ∧ (updateTable "temperature_table" entries key unit st).temperature_canvas = st.temperature_canvas
    ∧ (updateTable "temperature_table" entries key unit st).light_canvas = st.light_canvas
    ∧ (updateTable "temperature_table" entries key unit st).temperature_rendered = st.temperature_rendered
    ∧ (updateTable "temperature_table" entries key unit st).light_rendered = st.light_rendered
    ∧ (updateTable "temperature_table" entries key unit st).temperature_table =
        st.temperature_table.map
          (fun _ => some ⟨key, unit, entries.map (fun e => (e.dt, fieldOf key e.v))⟩) := by
  rw [updateTable_temperature]
  cases h : st.temperature_table with
  | none => exact ⟨rfl, rfl, rfl, rfl, rfl, rfl, rfl, rfl, by simp [h]⟩
  | some c => exact ⟨rfl, rfl, rfl, rfl, rfl, rfl, rfl, rfl, by simp [h]⟩

lemma updateTable_light_fields (entries : List Entry) (key unit : String)
    (st : DashState) :
    (updateTable "light_table" entries key unit st).latest_time = st.latest_time
    ∧ (updateTable "light_table" entries key unit st).latest_temperature = st.latest_temperature
    ∧ (updateTable "light_table" entries key unit st).latest_light = st.latest_light
    ∧ (updateTable "light_table" entries key unit st).temperature_table = st.temperature_table
    ∧ (updateTable "light_table" entries key unit st).temperature_canvas = st.temperature_canvas
    ∧ (updateTable "light_table" entries key unit st).light_canvas = st.light_canvas
    ∧ (updateTable "light_table" entries key unit st).temperature_rendered = st.temperature_rendered
    ∧ (updateTable "light_table" entries key unit st).light_rendered = st.light_rendered
    ∧ (updateTable "light_table" entries key unit st).light_table =
        st.light_table.map
          (fun _ => some ⟨key, unit, entries.map (fun e => (e.dt, fieldOf key e.v))⟩) := by
  rw [updateTable_light]
  cases h : st.light_table with
  | none => exact ⟨rfl, rfl, rfl, rfl, rfl, rfl, rfl, rfl, by simp [h]⟩
  | some c => exact ⟨rfl, rfl, rfl, rfl, rfl, rfl, rfl, rfl, by simp [h]⟩

lemma drawChart_temperature_fields (label : String) (labels values : List Int)
    (color : String) (st : DashState) :
    (drawChart "temperature_chart" label labels values color st).latest_time = st.latest_time
    ∧ (drawChart "temperature_chart" label labels values color st).latest_temperature = st.latest_temperature
    ∧ (drawChart "temperature_chart" label labels values color st).latest_light = st.latest_light
    ∧ (drawChart "temperature_chart" label labels values color st).temperature_table = st.temperature_table
    ∧ (drawChart "temperature_chart" label labels values color st).light_table = st.light_table
    ∧ (drawChart "temperature_chart" label labels values color st).light_canvas = st.light_canvas
    ∧ (drawChart "temperature_chart" label labels values color st).light_rendered = st.light_rendered
    ∧ (drawChart "temperature_chart" label labels values color st).temperature_rendered =
        (if st.temperature_canvas then
          some (mkChartConfig label labels values color TEMPERATURE_THRESHOLDS)
        else st.temperature_rendered) := by
  rw [drawChart_temperature]
  cases hc : st.temperature_canvas
  · exact ⟨rfl, rfl, rfl, rfl, rfl, rfl, rfl, rfl⟩
  · cases st.tempChart <;> exact ⟨rfl, rfl, rfl, rfl, rfl, rfl, rfl, rfl⟩

lemma drawChart_light_fields (label : String) (labels values : List Int)
    (color : String) (st : DashState) :
    (drawChart "light_chart" label labels values color st).latest_time = st.latest_time
    ∧ (drawChart "light_chart" label labels values color st).latest_temperature = st.latest_temperature
    ∧ (drawChart "light_chart" label labels values color st).latest_light = st.latest_light
    ∧ (drawChart "light_chart" label labels values color st).temperature_table = st.temperature_table
    ∧ (drawChart "light_chart" label labels values color st).light_table = st.light_table
    ∧ (drawChart "light_chart" label labels values color st).temperature_rendered = st.temperature_rendered
    ∧ (drawChart "light_chart" label labels values color st).light_rendered =
        (if st.light_canvas then
          some (mkChartConfig label labels values color LIGHT_THRESHOLDS)
        else st.light_rendered) := by
  rw [drawChart_light]
  cases hc : st.light_canvas
  · exact ⟨rfl, rfl, rfl, rfl, rfl, rfl, rfl⟩
  · cases st.lightChart <;> exact ⟨rfl, rfl, rfl, rfl, rfl, rfl, rfl⟩

/-- C8 counterexample: with a non-empty window, both table mounts and both
canvases present (and tables/charts due for an update), but the latest-tile
mount `latest_time` absent, `updateLatest`'s unguarded
`document.getElementById(...).innerText` assignment throws; the try/catch in
`fetchData` swallows it and the cycle ends with the state unchanged — the
table and chart surfaces were NOT updated, contradicting the claim that only
the absent surface is skipped. -/
theorem surface_skip_counterexample :
    pipelineEntries 0 [("1000000000".toList, ⟨5, 7, none⟩)] ≠ []
    ∧ (⟨none, some none, some none, some (some ⟨"x", "u", []⟩), some none, true, true,
        none, none, none, none, [], [], 0⟩ : DashState).temperature_table ≠ none
    ∧ fetchCycle 0 (some [("1000000000".toList, ⟨5, 7, none⟩)])
        ⟨none, some none, some none, some (some ⟨"x", "u", []⟩), some none, true, true,
          none, none, none, none, [], [], 0⟩ =
      ⟨none, some none, some none, some (some ⟨"x", "u", []⟩), some none, true, true,
        none, none, none, none, [], [], 0⟩ := by
  decide

/-- C8 amended: provided the three latest-tile mounts are present, every other
surface is independent: each table is updated exactly when its container is
present (and left absent otherwise), and each chart is re-rendered exactly
when its canvas is present (and left as it was otherwise) — regardless of the
presence of any other surface. When a latest-tile mount is absent, the thrown
error aborts the remaining surface updates of the cycle (see the
counterexample). -/
theorem surface_skip_amended (tzOff : Int) (data : List (List Char × SensorValue))
    (st : DashState) (latest : Entry) (rest : List Entry)
    (hp : pipelineEntries tzOff data = latest :: rest)
    (a b c : Option Int)
    (h1 : st.latest_time = some a) (h2 : st.latest_temperature = some b)
    (h3 : st.latest_light = some c) :
    (fetchCycle tzOff (some data) st).latest_time = some (some latest.dt)
    ∧ (fetchCycle tzOff (some data) st).latest_temperature =
        some (some latest.v.temperature)
    ∧ (fetchCycle tzOff (some data) st).latest_light = some (some latest.v.light_lux)
    ∧ (fetchCycle tzOff (some data) st).temperature_table =
        st.temperature_table.map (fun _ => some ⟨"temperature", "°C",
          (latest :: rest).map (fun e => (e.dt, fieldOf "temperature" e.v))⟩)
    ∧ (fetchCycle tzOff (some data) st).light_table =
        st.light_table.map (fun _ => some ⟨"light_lux", "lux",
          (latest :: rest).map (fun e => (e.dt, fieldOf "light_lux" e.v))⟩)
    ∧ (fetchCycle tzOff (some data) st).temperature_rendered =
        (if st.temperature_canvas then
          some (mkChartConfig "Temperature (°C)" (chartLabels (latest :: rest))
            ((latest :: rest).map (fun e => e.v.temperature)).reverse
            "rgba(255,99,132,1)" TEMPERATURE_THRESHOLDS)
        else st.temperature_rendered)
    ∧ (fetchCycle tzOff (some data) st).light_rendered =
        (if st.light_canvas then
          some (mkChartConfig "Light (lux)" (chartLabels (latest :: rest))
            ((latest :: rest).map (fun e => e.v.light_lux)).reverse
            "rgba(54,162,235,1)" LIGHT_THRESHOLDS)
        else st.light_rendered) := by
  rw [fetchCycle.eq_def]
  dsimp only
  rw [hp]
  dsimp only
  rw [updateLatest_eq, h1, h2, h3]
  dsimp only
  simp only [updateTable_temperature_fields, updateTable_light_fields,
    drawChart_temperature_fields, drawChart_light_fields]
  exact ⟨trivial, trivial, trivial, trivial, trivial, trivial, trivial⟩

/-- Witness for the amended C8: tile mounts present, temperature-table mount
absent, light-table mount and canvases present — the absent table stays
absent while the light table and the tile still receive their updates. -/
theorem surface_skip_amended_witness :
    (fetchCycle 0 (some [("1000000000".toList, ⟨5, 7, none⟩)])
        ⟨some none, some none, some none, none, some none, true, true,
          none, none, none, none, [], [], 0⟩).temperature_table = none
    ∧ (fetchCycle 0 (some [("1000000000".toList, ⟨5, 7, none⟩)])
        ⟨some none, some none, some none, none, some none, true, true,
          none, none, none, none, [], [], 0⟩).light_table =
        some (some ⟨"light_lux", "lux", [((1000000000000 : Int), (7 : Int))]⟩)
    ∧ (fetchCycle 0 (some [("1000000000".toList, ⟨5, 7, none⟩)])
        ⟨some none, some none, some none, none, some none, true, true,
          none, none, none, none, [], [], 0⟩).latest_time =
        some (some (1000000000000 : Int)) := by
  have h := surface_skip_amended 0 [("1000000000".toList, ⟨5, 7, none⟩)]
    ⟨some none, some none, some none, none, some none, true, true,
      none, none, none, none, [], [], 0⟩
    ⟨"1000000000".toList, ⟨5, 7, none⟩, 1000000000000⟩ [] (by decide)
    none none none rfl rfl rfl
  exact ⟨h.2.2.2.1, h.2.2.2.2.1, h.1⟩

end EnviroSense
